import Mathlib

/-!
Verification of the snake-evolution game (`snake_evolution.py`) against its
natural-language specification.

The Python source is shallowly embedded below.  Modelling conventions:
* grid cells are pairs of integers; Python `%` on ints agrees with Lean's
  `Int.emod` for positive moduli;
* Python float arithmetic on speeds is modelled as exact rational
  arithmetic (the literals `1.5` and `0.05` become `3/2` and `1/20`);
  Python `int()` (truncation toward zero) is modelled by `pyInt`;
* the mutating methods become state-passing functions; `Snake.move`
  returns `none` for the Python `return False` (blocked, state unchanged)
  and `some` of the updated snake for `return True`;
* `random.randint` / `random.choice` are modelled by an explicit `Oracle`
  of candidate cells and a chosen power-up type; the unbounded
  rejection-sampling loops become `List.find?` over the candidate list,
  with `none` modelling a run of candidates that never satisfies the
  filter (in Python the loop would keep drawing);
* the pygame rendering, fonts, clock, event queue and the cosmetic
  particle system have no effect on the game state and are omitted;
* `save_high_scores` writes the table to disk; the external file is
  modelled by the `stored_scores` field, which the save copies the
  table into.
-/

/-- WIDTH constant of the source (`WIDTH = 800`). -/
def WIDTH : Int := 800

/-- HEIGHT constant of the source (`HEIGHT = 600`). -/
def HEIGHT : Int := 600

/-- GRID_SIZE constant of the source (`GRID_SIZE = 20`). -/
def GRID_SIZE : Int := 20

/-- GRID_WIDTH constant (`GRID_WIDTH = WIDTH // GRID_SIZE = 40`). -/
def GRID_WIDTH : Int := WIDTH / GRID_SIZE

/-- GRID_HEIGHT constant (`GRID_HEIGHT = HEIGHT // GRID_SIZE = 30`). -/
def GRID_HEIGHT : Int := HEIGHT / GRID_SIZE

/-- FPS constant of the source (`FPS = 60`). -/
def FPS : Nat := 60

/-- Grid cell: a pair of integer coordinates, as in the Python tuples. -/
abbrev Cell := Int × Int

/-- Direction enum of the source. -/
inductive Direction where
  | UP
  | DOWN
  | LEFT
  | RIGHT
deriving DecidableEq, Repr

/-- Value of each `Direction` member: the unit delta `(dx, dy)`. -/
def Direction.delta : Direction → Cell
  | .UP => (0, -1)
  | .DOWN => (0, 1)
  | .LEFT => (-1, 0)
  | .RIGHT => (1, 0)

/-- PowerUpType enum of the source. -/
inductive PowerUpType where
  | SPEED_BOOST
  | SHIELD
  | MULTIPLIER
  | GHOST
deriving DecidableEq, Repr

/-- PowerUp dataclass: type, position and duration (default 300 frames).
The colour field is display-only and derived from the type, so it is
omitted. -/
structure PowerUp where
  type : PowerUpType
  pos : Cell
  duration : Nat := 300
deriving DecidableEq, Repr

/-- Snake state: `body` (head first), `direction`, `grow_pending` and the
`active_powerups` dict, modelled as an association list from power-up
type to remaining frames. -/
structure Snake where
  body : List Cell
  direction : Direction
  grow_pending : Nat
  active_powerups : List (PowerUpType × Nat)
deriving DecidableEq, Repr

/-- Membership test `t in active_powerups` on the association list. -/
def hasPU (ap : List (PowerUpType × Nat)) (t : PowerUpType) : Bool :=
  ap.any fun p => p.1 == t

/-- Python dict assignment `active_powerups[t] = v`: overwrite the entry
for `t` if present, otherwise append it. -/
def setPU (ap : List (PowerUpType × Nat)) (t : PowerUpType) (v : Nat) :
    List (PowerUpType × Nat) :=
  if ap.any fun p => p.1 == t then
    ap.map fun p => if p.1 == t then (t, v) else p
  else ap ++ [(t, v)]

/-- Per-tick power-up timer update of `Game.update`: decrement every
remaining time by one and delete the entries that reached `<= 0`. -/
def decPU (ap : List (PowerUpType × Nat)) : List (PowerUpType × Nat) :=
  (ap.map fun p => (p.1, p.2 - 1)).filter fun p => 0 < p.2

/-- Python `del active_powerups[PowerUpType.SHIELD]`. -/
def erasePU (ap : List (PowerUpType × Nat)) (t : PowerUpType) :
    List (PowerUpType × Nat) :=
  ap.filter fun p => !(p.1 == t)

/-- Snake method `get_head`: `self.body[0]`.  The body is never empty in
any state the program constructs; the default `(0, 0)` only totalises
the function. -/
def Snake.get_head (s : Snake) : Cell := s.body.headD (0, 0)

/-- Snake state built by `Snake.reset`: three cells centred on the grid,
heading right, nothing pending, no active power-ups. -/
def Snake.init : Snake :=
  { body := [(GRID_WIDTH / 2, GRID_HEIGHT / 2),
             (GRID_WIDTH / 2 - 1, GRID_HEIGHT / 2),
             (GRID_WIDTH / 2 - 2, GRID_HEIGHT / 2)],
    direction := .RIGHT,
    grow_pending := 0,
    active_powerups := [] }

/-- Snake method `move(has_ghost)`.  Returns `none` where Python returns
`False` without touching the snake, and `some` of the updated snake where
Python returns `True`.  Mirrors the source line by line: wall check only
without ghost, modulo wrap with ghost, self-collision against
`body[1:]` on the (possibly wrapped) new head, then insert at the front
and either consume one pending growth unit or pop the tail. -/
def Snake.move (s : Snake) (has_ghost : Bool) : Option Snake :=
  let h := s.get_head
  let d := s.direction.delta
  let nh0 : Cell := (h.1 + d.1, h.2 + d.2)
  if has_ghost = false ∧
      (nh0.1 < 0 ∨ nh0.1 ≥ GRID_WIDTH ∨ nh0.2 < 0 ∨ nh0.2 ≥ GRID_HEIGHT) then
    none
  else
    let new_head : Cell :=
      if has_ghost then (nh0.1 % GRID_WIDTH, nh0.2 % GRID_HEIGHT) else nh0
    if new_head ∈ s.body.tail then none
    else
      let body := new_head :: s.body
      if 0 < s.grow_pending then
        some { s with body := body, grow_pending := s.grow_pending - 1 }
      else
        some { s with body := body.dropLast }

/-- Snake method `grow(amount)`. -/
def Snake.grow (s : Snake) (amount : Nat) : Snake :=
  { s with grow_pending := s.grow_pending + amount }

/-- Snake method `set_direction(direction)`: ignore the request when the
head plus the requested delta lands on the second body segment
(`body[1]`), otherwise store the new direction. -/
def Snake.set_direction (s : Snake) (dir : Direction) : Snake :=
  let d := dir.delta
  let h := s.get_head
  if 1 < s.body.length then
    let neck := s.body.tail.headD (0, 0)
    if (h.1 + d.1, h.2 + d.2) ≠ neck then { s with direction := dir } else s
  else { s with direction := dir }

/-- New head before any wrapping: head plus the current direction delta
(line `new_head = (head_x + dx, head_y + dy)` of `move`). -/
def rawNewHead (s : Snake) : Cell :=
  (s.get_head.1 + s.direction.delta.1, s.get_head.2 + s.direction.delta.2)

/-- Ghost-mode wrap of `move`: both coordinates taken modulo the grid
dimensions. -/
def wrapCell (c : Cell) : Cell := (c.1 % GRID_WIDTH, c.2 % GRID_HEIGHT)

/-- New head that `move` tests for self-collision: wrapped when ghost is
active, raw otherwise. -/
def effNewHead (s : Snake) (has_ghost : Bool) : Cell :=
  if has_ghost then wrapCell (rawNewHead s) else rawNewHead s

/-- Cell within the grid bounds. -/
def inBounds (c : Cell) : Prop :=
  0 ≤ c.1 ∧ c.1 < GRID_WIDTH ∧ 0 ≤ c.2 ∧ c.2 < GRID_HEIGHT

instance (c : Cell) : Decidable (inBounds c) := by
  unfold inBounds; infer_instance

/-- Wall-collision condition of `move`, verbatim from the source:
`new_head[0] < 0 or new_head[0] >= GRID_WIDTH or new_head[1] < 0 or
new_head[1] >= GRID_HEIGHT`. -/
def oobCell (c : Cell) : Prop :=
  c.1 < 0 ∨ c.1 ≥ GRID_WIDTH ∨ c.2 < 0 ∨ c.2 ≥ GRID_HEIGHT

instance (c : Cell) : Decidable (oobCell c) := by
  unfold oobCell; infer_instance

/-- Mode strings of the source (`self.mode`). -/
inductive Mode where
  | MENU
  | CLASSIC
  | TIME_ATTACK
  | SURVIVAL
  | GAME_OVER
deriving DecidableEq, Repr

/-- Test `self.mode in ["CLASSIC", "TIME_ATTACK", "SURVIVAL"]` guarding
the whole of `Game.update`. -/
def Mode.isActive : Mode → Bool
  | .CLASSIC => true
  | .TIME_ATTACK => true
  | .SURVIVAL => true
  | _ => false

/-- Lower-cased mode string, as used for the high-score keys
(`self.last_mode.lower()`). -/
def Mode.key : Mode → String
  | .MENU => "menu"
  | .CLASSIC => "classic"
  | .TIME_ATTACK => "time_attack"
  | .SURVIVAL => "survival"
  | .GAME_OVER => "game_over"

/-- Python `d.get(k, 0)` on the high-score dict. -/
def getScore (hs : List (String × Nat)) (k : String) : Nat :=
  (hs.lookup k).getD 0

/-- Python dict assignment `d[k] = v` on the high-score dict. -/
def setScore (hs : List (String × Nat)) (k : String) (v : Nat) :
    List (String × Nat) :=
  if hs.any fun p => p.1 == k then
    hs.map fun p => if p.1 == k then (k, v) else p
  else hs ++ [(k, v)]

/-- Game state: the fields of the `Game` object that take part in the
simulation.  `stored_scores` models the contents of the external
high-score file that `save_high_scores` writes. -/
structure Game where
  mode : Mode
  last_mode : Mode
  snake : Snake
  score : Nat
  move_counter : Nat
  base_speed : ℚ
  speed_multiplier : ℚ
  powerups : List PowerUp
  obstacles : List Cell
  time_remaining : Int
  powerup_spawn_counter : Nat
  food_pos : Cell
  high_scores : List (String × Nat)
  stored_scores : List (String × Nat)
deriving DecidableEq, Repr

/-- Python `int()` applied to a rational: truncation toward zero. -/
def pyInt (q : ℚ) : Int := if q < 0 then ⌈q⌉ else ⌊q⌋

/-- Speed computation of `Game.update`: `base_speed * speed_multiplier`,
times `1.5` with an active SpeedBoost, plus `len(body) * 0.05` in
Classic mode. -/
def currentSpeed (g : Game) : ℚ :=
  let cs := g.base_speed * g.speed_multiplier
  let cs := if hasPU g.snake.active_powerups .SPEED_BOOST then
              cs * (3 / 2 : ℚ)
            else cs
  if g.mode = Mode.CLASSIC then
    cs + (g.snake.body.length : ℚ) * (1 / 20 : ℚ)
  else cs

/-- Cadence of `Game.update`:
`frames_per_move = max(1, int(FPS / current_speed))`. -/
def framesPerMove (g : Game) : Nat :=
  (max 1 (pyInt ((FPS : ℚ) / currentSpeed g))).toNat

/-- Cadence as the specification words it, with `round` in place of the
code's `int` truncation.  Modelled from the spec:
`ticks_per_move = max(1, round(fixed_frame_rate / effective_speed))`. -/
def specCadence (g : Game) : Nat :=
  (max 1 (round ((FPS : ℚ) / currentSpeed g))).toNat

/-- Candidate randomness for one tick: the successive cells that
`random.randint` would produce for each spawner, and the power-up type
`random.choice` would pick. -/
structure Oracle where
  foodCands : List Cell
  puCands : List Cell
  puType : PowerUpType
  obsCands : List Cell
deriving Repr

/-- Method `Game.spawn_food`: first candidate cell that is neither on the
snake body nor on an obstacle.  `none` models a candidate run the
Python rejection loop would never accept. -/
def spawn_food (body obstacles cands : List Cell) : Option Cell :=
  cands.find? fun pos => decide (pos ∉ body ∧ pos ∉ obstacles)

/-- Method `Game.spawn_powerup`: only with fewer than 2 power-ups on the
field, take the first candidate off the snake, the food, the other
power-ups and the obstacles, and append a power-up of the chosen type
with the default duration 300. -/
def spawn_powerup (g : Game) (cands : List Cell) (t : PowerUpType) :
    Option (List PowerUp) :=
  if g.powerups.length < 2 then
    match cands.find? fun pos => decide (pos ∉ g.snake.body ∧
        pos ≠ g.food_pos ∧ pos ∉ g.powerups.map PowerUp.pos ∧
        pos ∉ g.obstacles) with
    | some pos => some (g.powerups ++ [{ type := t, pos := pos }])
    | none => none
  else some g.powerups

/-- Method `Game.spawn_obstacle`: first candidate off the snake, the
food, the power-ups and the existing obstacles, appended to the
obstacle list. -/
def spawn_obstacle (g : Game) (cands : List Cell) : Option (List Cell) :=
  match cands.find? fun pos => decide (pos ∉ g.snake.body ∧
      pos ≠ g.food_pos ∧ pos ∉ g.powerups.map PowerUp.pos ∧
      pos ∉ g.obstacles) with
  | some pos => some (g.obstacles ++ [pos])
  | none => none

/-- Method `Game.game_over`: record the ending mode, switch to the
GAME_OVER screen, and when the score strictly beats the stored best of
that mode, write it into the table and save the table to disk. -/
def Game.game_over (g : Game) : Game :=
  let lm := g.mode
  if g.score > getScore g.high_scores lm.key then
    let hs := setScore g.high_scores lm.key g.score
    { g with last_mode := lm, mode := Mode.GAME_OVER,
             high_scores := hs, stored_scores := hs }
  else
    { g with last_mode := lm, mode := Mode.GAME_OVER }

/-- Loop `for powerup in self.powerups[:]` of `Game.update`: every
power-up lying under the head is activated (its duration written into
`active_powerups`) and removed from the field; the rest stay in order. -/
def pickupPowerups (head : Cell) :
    List PowerUp → List (PowerUpType × Nat) →
    List PowerUp × List (PowerUpType × Nat)
  | [], ap => ([], ap)
  | p :: rest, ap =>
    if head = p.pos then pickupPowerups head rest (setPU ap p.type p.duration)
    else
      let r := pickupPowerups head rest ap
      (p :: r.1, r.2)

/-- Timer-decrement stage of `Game.update` applied to the whole game
state (lines updating `active_powerups` before the speed computation). -/
def decStage (g : Game) : Game :=
  { g with snake := { g.snake with
      active_powerups := decPU g.snake.active_powerups } }

/-- Food-collision stage of `Game.update`: when the head sits on the
food, grow by one, add `10 * multiplier` to the score and respawn the
food off the (grown) snake body and the obstacles. -/
def foodStep (o : Oracle) (g : Game) : Option Game :=
  if g.snake.get_head = g.food_pos then
    match spawn_food (g.snake.grow 1).body g.obstacles o.foodCands with
    | some fp =>
      some { g with
        snake := g.snake.grow 1
        score := g.score + 10 * (if hasPU (g.snake.grow 1).active_powerups
          .MULTIPLIER then 2 else 1)
        food_pos := fp }
    | none => none
  else some g

/-- Power-up-collision stage of `Game.update` as a state update. -/
def pickupStep (g : Game) : Game :=
  let r := pickupPowerups g.snake.get_head g.powerups g.snake.active_powerups
  { g with powerups := r.1,
           snake := { g.snake with active_powerups := r.2 } }

/-- Periodic power-up spawn stage of `Game.update`: increment the spawn
counter; once it reaches `FPS * 10` reset it and call `spawn_powerup`. -/
def puSpawnStep (o : Oracle) (g : Game) : Option Game :=
  if g.powerup_spawn_counter + 1 ≥ FPS * 10 then
    match spawn_powerup g o.puCands o.puType with
    | some pus =>
      some { g with powerup_spawn_counter := 0, powerups := pus }
    | none => none
  else some { g with powerup_spawn_counter := g.powerup_spawn_counter + 1 }

/-- Survival obstacle spawn stage of `Game.update`. -/
def obsSpawnStep (o : Oracle) (g : Game) : Option Game :=
  if g.mode = Mode.SURVIVAL ∧ g.snake.body.length % 5 = 0 ∧
      g.snake.body.length > 3 ∧
      g.obstacles.length < g.snake.body.length / 5 then
    match spawn_obstacle g o.obsCands with
    | some obs => some { g with obstacles := obs }
    | none => none
  else some g

/-- Time-attack stage of `Game.update`: decrement the remaining time and
end the game when it reaches zero. -/
def timeStep (g : Game) : Game :=
  if g.mode = Mode.TIME_ATTACK then
    if g.time_remaining - 1 ≤ 0 then
      Game.game_over { g with time_remaining := g.time_remaining - 1 }
    else { g with time_remaining := g.time_remaining - 1 }
  else g

/-- Stages of `Game.update` that run on every tick after the movement
block: power-up spawning, survival obstacle spawning and the time-attack
countdown, in source order. -/
def tickTail (o : Oracle) (g : Game) : Option Game :=
  (puSpawnStep o g).bind fun g1 => (obsSpawnStep o g1).map timeStep

/-- Food and power-up collision checks followed by the per-tick tail. -/
def afterObstacle (o : Oracle) (g : Game) : Option Game :=
  (foodStep o g).bind fun g1 => tickTail o (pickupStep g1)

/-- Post-move block of `Game.update`: in Survival without ghost, a head
on an obstacle either consumes the Shield (also deleting every obstacle
under the head) or ends the game, skipping the rest of the tick. -/
def postMove (o : Oracle) (has_ghost : Bool) (g : Game) : Option Game :=
  if g.mode = Mode.SURVIVAL ∧ has_ghost = false ∧
      g.snake.get_head ∈ g.obstacles then
    if hasPU g.snake.active_powerups .SHIELD then
      afterObstacle o
        { g with
          snake := { g.snake with
            active_powerups := erasePU g.snake.active_powerups .SHIELD }
          obstacles := g.obstacles.filter fun c =>
            decide (c ≠ g.snake.get_head) }
    else some g.game_over
  else afterObstacle o g

/-- Movement block of `Game.update`, entered when the frame counter
reached the cadence: attempt the move; a blocked move consumes the
Shield if present and otherwise ends the game on the spot. -/
def moveStage (o : Oracle) (g : Game) : Option Game :=
  match g.snake.move (hasPU g.snake.active_powerups .GHOST) with
  | some s =>
    postMove o (hasPU g.snake.active_powerups .GHOST) { g with snake := s }
  | none =>
    if hasPU g.snake.active_powerups .SHIELD then
      postMove o (hasPU g.snake.active_powerups .GHOST)
        { g with snake := { g.snake with
            active_powerups := erasePU g.snake.active_powerups .SHIELD } }
    else some g.game_over

/-- Method `Game.update`, one frame of the simulation: do nothing outside
an active round; decrement the power-up timers; derive the cadence;
advance the frame counter; run the movement block when the counter
reached the cadence; then the per-tick tail stages. -/
def Game.update (o : Oracle) (g : Game) : Option Game :=
  if g.mode.isActive = false then some g
  else if g.move_counter + 1 ≥ framesPerMove (decStage g) then
    moveStage o { decStage g with move_counter := 0 }
  else tickTail o { decStage g with move_counter := g.move_counter + 1 }

/-- Method `Game.reset_game` (given a fresh snake, `spawn_food` runs with
the empty obstacle list). -/
def Game.reset_game (g : Game) (foodCands : List Cell) : Option Game :=
  match spawn_food Snake.init.body [] foodCands with
  | some fp =>
    some { g with
      snake := Snake.init
      score := 0
      move_counter := 0
      base_speed := 8
      speed_multiplier := 1
      powerups := []
      obstacles := []
      time_remaining := 60 * (FPS : Int)
      powerup_spawn_counter := 0
      food_pos := fp }
  | none => none

/-- Concrete snake used to exercise claim C1: head one cell short of the
right wall, moving right. -/
def c1S : Snake :=
  { body := [(39, 15), (38, 15), (37, 15)], direction := .RIGHT,
    grow_pending := 0, active_powerups := [] }

/-- Result of the ghost move of `c1S`: the head wraps to column 0. -/
def c1Sres : Snake :=
  { body := [(0, 15), (39, 15), (38, 15)], direction := .RIGHT,
    grow_pending := 0, active_powerups := [] }

/-- Concrete snake used to exercise claim C2: moving down onto its own
fourth segment. -/
def c2S : Snake :=
  { body := [(5, 5), (6, 5), (6, 6), (5, 6)], direction := .DOWN,
    grow_pending := 0, active_powerups := [] }

/-- Concrete snake used to exercise claim C3 with no pending growth. -/
def c3S : Snake :=
  { body := [(5, 5), (4, 5)], direction := .RIGHT,
    grow_pending := 0, active_powerups := [] }

/-- Result of moving `c3S`: same length, head advanced. -/
def c3Sres : Snake :=
  { body := [(6, 5), (5, 5)], direction := .RIGHT,
    grow_pending := 0, active_powerups := [] }

/-- Concrete snake used to exercise claim C3 with one pending growth
unit. -/
def c3T : Snake :=
  { body := [(5, 5), (4, 5)], direction := .RIGHT,
    grow_pending := 1, active_powerups := [] }

/-- Result of moving `c3T`: length grew by one, pending growth consumed. -/
def c3Tres : Snake :=
  { body := [(6, 5), (5, 5), (4, 5)], direction := .RIGHT,
    grow_pending := 0, active_powerups := [] }

/-- Concrete snake used to exercise claim C4: head at (5,5) with the neck
directly above it. -/
def c4S : Snake :=
  { body := [(5, 5), (5, 4)], direction := .DOWN,
    grow_pending := 0, active_powerups := [] }

/-- Concrete single-segment snake used to exercise claim C4. -/
def c4T : Snake :=
  { body := [(5, 5)], direction := .DOWN,
    grow_pending := 0, active_powerups := [] }

/-- Concrete game used to exercise claim C8 with a score beating the
stored best. -/
def c8G : Game :=
  { mode := .CLASSIC, last_mode := .CLASSIC, snake := Snake.init,
    score := 50, move_counter := 0, base_speed := 8,
    speed_multiplier := 1, powerups := [], obstacles := [],
    time_remaining := 3600, powerup_spawn_counter := 0, food_pos := (0, 0),
    high_scores := [("classic", 30)], stored_scores := [("classic", 30)] }

/-- Concrete game used to exercise claim C8 with a score below the
stored best. -/
def c8H : Game := { c8G with score := 20 }

/-- Base concrete game used to build the tick-level witness states:
three-cell snake in open field, default speeds, empty field. -/
def baseGame : Game :=
  { mode := .CLASSIC
    last_mode := .CLASSIC
    snake := { body := [(20, 15), (19, 15), (18, 15)]
               direction := .RIGHT
               grow_pending := 0
               active_powerups := [] }
    score := 0
    move_counter := 0
    base_speed := 8
    speed_multiplier := 1
    powerups := []
    obstacles := []
    time_remaining := 3600
    powerup_spawn_counter := 0
    food_pos := (0, 0)
    high_scores := []
    stored_scores := [] }

/-- Oracle with no useful candidates, for ticks that spawn nothing. -/
def emptyOracle : Oracle :=
  { foodCands := [], puCands := [], puType := .SHIELD, obsCands := [] }

/-- Witness state for claim C5 part one: Classic mode, Shield active,
head one cell short of the right wall, counter about to fire. -/
def c5A : Game :=
  { baseGame with
    snake := { body := [(39, 15), (38, 15), (37, 15)]
               direction := .RIGHT
               grow_pending := 0
               active_powerups := [(PowerUpType.SHIELD, 5)] }
    move_counter := 6 }

/-- Tick result of `c5A`: Shield consumed, snake unmoved, round goes on. -/
def c5Ares : Game :=
  { baseGame with
    snake := { body := [(39, 15), (38, 15), (37, 15)]
               direction := .RIGHT
               grow_pending := 0
               active_powerups := [] }
    move_counter := 0
    powerup_spawn_counter := 1 }

/-- Witness state for claim C5 part two: Survival mode, Shield active,
head about to move onto an obstacle. -/
def c5B : Game :=
  { baseGame with
    mode := .SURVIVAL
    last_mode := .SURVIVAL
    snake := { body := [(10, 15), (9, 15), (8, 15)]
               direction := .RIGHT
               grow_pending := 0
               active_powerups := [(PowerUpType.SHIELD, 5)] }
    move_counter := 6
    obstacles := [(11, 15)] }

/-- Moved snake of the `c5B` tick before the obstacle resolution. -/
def c5Bs1 : Snake :=
  { body := [(11, 15), (10, 15), (9, 15)]
    direction := .RIGHT
    grow_pending := 0
    active_powerups := [(PowerUpType.SHIELD, 4)] }

/-- Tick result of `c5B`: Shield consumed, obstacle removed, round goes
on. -/
def c5Bres : Game :=
  { baseGame with
    mode := .SURVIVAL
    last_mode := .SURVIVAL
    snake := { body := [(11, 15), (10, 15), (9, 15)]
               direction := .RIGHT
               grow_pending := 0
               active_powerups := [] }
    move_counter := 0
    obstacles := []
    powerup_spawn_counter := 1 }

/-- Witness state for claim C5 part three: same wall collision as `c5A`
but with no Shield. -/
def c5C : Game :=
  { baseGame with
    snake := { body := [(39, 15), (38, 15), (37, 15)]
               direction := .RIGHT
               grow_pending := 0
               active_powerups := [] }
    move_counter := 6 }

/-- Tick result of `c5C`: the game ends. -/
def c5Cres : Game :=
  { baseGame with
    mode := .GAME_OVER
    last_mode := .CLASSIC
    snake := { body := [(39, 15), (38, 15), (37, 15)]
               direction := .RIGHT
               grow_pending := 0
               active_powerups := [] }
    move_counter := 0 }

/-- Counterexample state for claim C6: Classic mode with SpeedBoost and
a length-3 snake, where effective speed 12.15 gives `int` 4 but `round`
5. -/
def c6X : Game :=
  { baseGame with
    snake := { body := [(5, 5), (4, 5), (3, 5)]
               direction := .RIGHT
               grow_pending := 0
               active_powerups := [(PowerUpType.SPEED_BOOST, 100)] } }

/-- Witness state for claim C6: Time Attack at base speed, counter far
below the cadence. -/
def c6G : Game :=
  { baseGame with
    mode := .TIME_ATTACK
    last_mode := .TIME_ATTACK }

/-- Tick result of `c6G`: no move, counters advance, clock drops. -/
def c6Gres : Game :=
  { baseGame with
    mode := .TIME_ATTACK
    last_mode := .TIME_ATTACK
    move_counter := 1
    time_remaining := 3599
    powerup_spawn_counter := 1 }

/-- Witness state for claim C9: Classic mode one tick before the
10-second power-up spawn fires. -/
def c9G : Game := { baseGame with powerup_spawn_counter := 599 }

/-- Oracle for the `c9G` tick: the power-up lands on (5, 5). -/
def c9O : Oracle :=
  { foodCands := [(3, 3)], puCands := [(5, 5)], puType := .SPEED_BOOST,
    obsCands := [] }

/-- Tick result of `c9G`: one power-up spawned, spawn counter reset. -/
def c9Gres : Game :=
  { baseGame with
    move_counter := 1
    powerup_spawn_counter := 0
    powerups := [{ type := .SPEED_BOOST, pos := (5, 5), duration := 300 }] }

/-- Power-up field list produced by the spawner in the `c9G` witness. -/
def c9pus : List PowerUp :=
  [{ type := .SPEED_BOOST, pos := (5, 5), duration := 300 }]

/-- Session produced by `reset_game` from `c9G` with food candidate
(3, 3). -/
def c9Rres : Game :=
  { baseGame with
    snake := Snake.init
    powerup_spawn_counter := 0
    food_pos := (3, 3) }

/-- Witness state for the timer gate of claim C9: spawn counter far from
firing. -/
def c9H : Game := baseGame

/-- Non-firing spawn step result for `c9H`. -/
def c9Hres : Game := { baseGame with powerup_spawn_counter := 1 }

/-- Witness state for claim C5 part four: Survival mode with no Shield,
head about to move onto an obstacle. -/
def c5D : Game :=
  { baseGame with
    mode := .SURVIVAL
    last_mode := .SURVIVAL
    snake := { body := [(10, 15), (9, 15), (8, 15)]
               direction := .RIGHT
               grow_pending := 0
               active_powerups := [] }
    move_counter := 6
    obstacles := [(11, 15)] }

/-- Moved snake of the `c5D` tick: its head lands on the obstacle. -/
def c5Ds1 : Snake :=
  { body := [(11, 15), (10, 15), (9, 15)]
    direction := .RIGHT
    grow_pending := 0
    active_powerups := [] }

/-- Tick result of `c5D`: the unshielded obstacle hit ends the game. -/
def c5Dres : Game :=
  { baseGame with
    mode := .GAME_OVER
    last_mode := .SURVIVAL
    snake := { body := [(11, 15), (10, 15), (9, 15)]
               direction := .RIGHT
               grow_pending := 0
               active_powerups := [] }
    move_counter := 0
    obstacles := [(11, 15)] }

/-- Predecessor state of the C5 counterexample: Survival mode, Ghost and
Shield both active, head one cell short of an obstacle, counter about to
fire.  With Ghost active the obstacle check is skipped, so the tick
parks the head on the obstacle with the snake alive. -/
def c5W : Game :=
  { baseGame with
    mode := .SURVIVAL
    last_mode := .SURVIVAL
    snake := { body := [(38, 15), (37, 15), (36, 15)]
               direction := .RIGHT
               grow_pending := 0
               active_powerups := [(PowerUpType.SHIELD, 12),
                                   (PowerUpType.GHOST, 8)] }
    move_counter := 6
    obstacles := [(39, 15)] }

/-- Tick result of `c5W`: snake alive and ghosted with its head parked
on the obstacle cell. -/
def c5Wres : Game :=
  { baseGame with
    mode := .SURVIVAL
    last_mode := .SURVIVAL
    snake := { body := [(39, 15), (38, 15), (37, 15)]
               direction := .RIGHT
               grow_pending := 0
               active_powerups := [(PowerUpType.SHIELD, 11),
                                   (PowerUpType.GHOST, 7)] }
    move_counter := 0
    obstacles := [(39, 15)]
    powerup_spawn_counter := 1 }

/-- Counterexample state for claim C5: Survival mode, head parked on an
obstacle (reached ghosted, as the `c5W` tick shows), Ghost about to
expire with Shield still active, wall ahead, counter about to fire. -/
def c5X : Game :=
  { baseGame with
    mode := .SURVIVAL
    last_mode := .SURVIVAL
    snake := { body := [(39, 15), (38, 15), (37, 15)]
               direction := .RIGHT
               grow_pending := 0
               active_powerups := [(PowerUpType.SHIELD, 5),
                                   (PowerUpType.GHOST, 1)] }
    move_counter := 6
    obstacles := [(39, 15)] }

/-- Tick result of `c5X`: the Shield absorbs the blocked wall move, yet
the now-unshielded obstacle under the unmoved head ends the game in the
same tick. -/
def c5Xres : Game :=
  { baseGame with
    mode := .GAME_OVER
    last_mode := .SURVIVAL
    snake := { body := [(39, 15), (38, 15), (37, 15)]
               direction := .RIGHT
               grow_pending := 0
               active_powerups := [] }
    move_counter := 0
    obstacles := [(39, 15)] }

/-- Witness state for claim C10: Classic mode, Shield active, head on
the left wall moving left, counter about to fire. -/
def c10G : Game :=
  { baseGame with
    snake := { body := [(0, 15), (1, 15), (2, 15)]
               direction := .LEFT
               grow_pending := 0
               active_powerups := [(PowerUpType.SHIELD, 10)] }
    move_counter := 6 }

/-- Every wrapped cell is within the grid bounds. -/
theorem wrapCell_inBounds (c : Cell) : inBounds (wrapCell c) :=
  ⟨Int.emod_nonneg _ (by decide), Int.emod_lt_of_pos _ (by decide),
    Int.emod_nonneg _ (by decide), Int.emod_lt_of_pos _ (by decide)⟩

/-- Characterisation of `Snake.move` as a decision tree over `oobCell`,
`effNewHead`, and `grow_pending`. -/
theorem move_eq (s : Snake) (ghost : Bool) :
    s.move ghost =
      if ghost = false ∧ oobCell (rawNewHead s) then none
      else if effNewHead s ghost ∈ s.body.tail then none
      else if 0 < s.grow_pending then
        some { s with
          body := effNewHead s ghost :: s.body
          grow_pending := s.grow_pending - 1 }
      else some { s with body := (effNewHead s ghost :: s.body).dropLast } := by
  cases ghost <;>
    simp [Snake.move, effNewHead, wrapCell, rawNewHead, oobCell]

/-- C1: without Ghost, a computed new head outside the grid bounds makes
`move` return blocked (`none`, so the snake is unchanged); with Ghost the
new head is wrapped modulo the grid dimensions, and on every successful
ghost move the resulting head is that wrapped cell, hence within
bounds. -/
theorem c1_wall_blocks_ghost_wraps (s : Snake) :
    (oobCell (rawNewHead s) → s.move false = none) ∧
    (∀ s', s.move true = some s' → s.body ≠ [] →
      s'.get_head = wrapCell (rawNewHead s) ∧ inBounds s'.get_head) := by
  constructor
  · intro h
    rw [move_eq, if_pos ⟨rfl, h⟩]
  · intro s' hmv hb
    obtain ⟨x, xs, hx⟩ := List.exists_cons_of_ne_nil hb
    rw [move_eq] at hmv
    rw [if_neg (by simp)] at hmv
    split at hmv
    · exact Option.noConfusion hmv
    · split at hmv
      · obtain rfl := Option.some.inj hmv
        exact ⟨rfl, show inBounds (wrapCell (rawNewHead s)) from
          wrapCell_inBounds _⟩
      · obtain rfl := Option.some.inj hmv
        have hh : Snake.get_head
            { s with body := (effNewHead s true :: s.body).dropLast } =
            wrapCell (rawNewHead s) := by
          simp only [Snake.get_head, hx, List.dropLast, List.headD,
            effNewHead, if_true]
        exact ⟨hh, hh ▸ wrapCell_inBounds _⟩

/-- Witness for C1 at the concrete snake `c1S`, whose raw new head
(40, 15) is out of bounds: the wall move blocks and the ghost move wraps
to (0, 15). -/
theorem c1_witness :
    oobCell (rawNewHead c1S) ∧ c1S.move false = none ∧
    c1Sres.get_head = wrapCell (rawNewHead c1S) ∧ inBounds c1Sres.get_head :=
  ⟨by decide, (c1_wall_blocks_ghost_wraps c1S).1 (by decide),
    (c1_wall_blocks_ghost_wraps c1S).2 c1Sres (by decide) (by decide)⟩

/-- C2: with or without Ghost, when the (possibly wrapped) new head lies
in `body[1:]` evaluated before insertion, `move` returns blocked
(`none`, so the snake is unchanged). -/
theorem c2_self_collision_blocks (s : Snake) (ghost : Bool)
    (h : effNewHead s ghost ∈ s.body.tail) : s.move ghost = none := by
  rw [move_eq]
  by_cases hc : ghost = false ∧ oobCell (rawNewHead s)
  · rw [if_pos hc]
  · rw [if_neg hc, if_pos h]

/-- Witness for C2 at the concrete snake `c2S`, which moves down onto its
own fourth segment, with and without ghost. -/
theorem c2_witness :
    (effNewHead c2S false ∈ c2S.body.tail ∧ c2S.move false = none) ∧
    (effNewHead c2S true ∈ c2S.body.tail ∧ c2S.move true = none) :=
  ⟨⟨by decide, c2_self_collision_blocks c2S false (by decide)⟩,
    ⟨by decide, c2_self_collision_blocks c2S true (by decide)⟩⟩

/-- C3: on every successful move the new head is prepended; with
`grow_pending = 0` the tail is removed and the length is unchanged; with
`grow_pending > 0` the tail stays, the length grows by exactly one and
`grow_pending` drops by exactly one. -/
theorem c3_growth_bookkeeping (s : Snake) (ghost : Bool) (s' : Snake)
    (h : s.move ghost = some s') :
    (s.grow_pending = 0 →
        s'.body = (effNewHead s ghost :: s.body).dropLast ∧
        s'.body.length = s.body.length ∧ s'.grow_pending = 0) ∧
    (0 < s.grow_pending →
        s'.body = effNewHead s ghost :: s.body ∧
        s'.body.length = s.body.length + 1 ∧
        s'.grow_pending = s.grow_pending - 1) := by
  rw [move_eq] at h
  split at h
  · exact Option.noConfusion h
  · split at h
    · exact Option.noConfusion h
    · split at h
      · rename_i hg
        obtain rfl := Option.some.inj h
        exact ⟨fun h0 => by omega, fun _ => ⟨rfl, by simp, rfl⟩⟩
      · rename_i hg
        obtain rfl := Option.some.inj h
        exact ⟨fun _ => ⟨rfl, by simp [List.length_dropLast],
            show s.grow_pending = 0 by omega⟩,
          fun hp => absurd hp hg⟩

/-- Witness for C3 at the concrete snakes `c3S` (no pending growth: the
length stays 2) and `c3T` (one pending unit: the length becomes 3 and
the pending count drops to 0). -/
theorem c3_witness :
    (c3S.move false = some c3Sres ∧
      c3Sres.body.length = c3S.body.length ∧ c3Sres.grow_pending = 0) ∧
    (c3T.move false = some c3Tres ∧
      c3Tres.body.length = c3T.body.length + 1 ∧
      c3Tres.grow_pending = c3T.grow_pending - 1) :=
  ⟨⟨by decide,
      ((c3_growth_bookkeeping c3S false c3Sres (by decide)).1 rfl).2⟩,
    ⟨by decide,
      ((c3_growth_bookkeeping c3T false c3Tres (by decide)).2
        (by decide)).2⟩⟩

/-- C4: for a snake longer than one segment, `set_direction d` is a no-op
exactly when the head plus the delta of `d` lands on the second body
segment, and stores `d` in every other case; a single-segment snake
always stores `d`. -/
theorem c4_reversal_rejected (s : Snake) (d : Direction) :
    (1 < s.body.length →
        ((s.get_head.1 + d.delta.1, s.get_head.2 + d.delta.2) =
            s.body.tail.headD (0, 0) →
          s.set_direction d = s) ∧
        ((s.get_head.1 + d.delta.1, s.get_head.2 + d.delta.2) ≠
            s.body.tail.headD (0, 0) →
          s.set_direction d = { s with direction := d })) ∧
    (s.body.length = 1 → s.set_direction d = { s with direction := d }) := by
  constructor
  · intro hl
    constructor
    · intro he
      simp only [Snake.set_direction]
      rw [if_pos hl, if_neg (by simpa using he)]
    · intro he
      simp only [Snake.set_direction]
      rw [if_pos hl, if_pos he]
  · intro hl
    simp only [Snake.set_direction]
    rw [if_neg (by omega)]

/-- Witness for C4 at the concrete snakes `c4S` (an UP request reverses
into the neck and is ignored; a LEFT request is accepted) and the
single-segment `c4T` (even the reversing UP request is accepted). -/
theorem c4_witness :
    c4S.set_direction .UP = c4S ∧
    c4S.set_direction .LEFT = { c4S with direction := .LEFT } ∧
    c4T.set_direction .UP = { c4T with direction := .UP } :=
  ⟨((c4_reversal_rejected c4S .UP).1 (by decide)).1 (by decide),
    ((c4_reversal_rejected c4S .LEFT).1 (by decide)).2 (by decide),
    (c4_reversal_rejected c4T .UP).2 (by decide)⟩

/-- Looking a key up after overwriting it everywhere it occurs yields the
new value when the key occurs, and nothing otherwise. -/
theorem lookup_overwrite (hs : List (String × Nat)) (k : String) (v : Nat) :
    ((hs.map fun p => if p.1 == k then (k, v) else p).lookup k) =
      if hs.any (fun p => p.1 == k) then some v else none := by
  induction hs with
  | nil => simp
  | cons p t ih =>
    obtain ⟨a, b⟩ := p
    by_cases hp : a = k
    · subst hp
      simp only [List.map_cons, List.any_cons]
      rw [if_pos (by simp)]
      simp [List.lookup]
    · simp only [List.map_cons, List.any_cons]
      rw [if_neg (by simp [hp])]
      have hk : (k == a) = false := by simp [Ne.symm hp]
      have ha : (a == k) = false := by simp [hp]
      simp only [List.lookup, hk, ha, Bool.false_or]
      exact ih

/-- A key absent from every pair is not found by `lookup`. -/
theorem lookup_eq_none_of_not_any (hs : List (String × Nat)) (k : String)
    (h : hs.any (fun p => p.1 == k) = false) : hs.lookup k = none := by
  induction hs with
  | nil => rfl
  | cons p t ih =>
    simp only [List.any_cons, Bool.or_eq_false_iff] at h
    have hk : (k == p.1) = false := by
      rcases h with ⟨h1, _⟩
      simp only [beq_eq_false_iff_ne] at h1 ⊢
      exact Ne.symm h1
    simp [List.lookup, hk, ih h.2]

/-- Appending a fresh key and looking it up yields its value. -/
theorem lookup_append_self (hs : List (String × Nat)) (k : String) (v : Nat)
    (h : hs.any (fun p => p.1 == k) = false) :
    (hs ++ [(k, v)]).lookup k = some v := by
  induction hs with
  | nil => simp [List.lookup]
  | cons p t ih =>
    simp only [List.any_cons, Bool.or_eq_false_iff] at h
    have hk : (k == p.1) = false := by
      rcases h with ⟨h1, _⟩
      simp only [beq_eq_false_iff_ne] at h1 ⊢
      exact Ne.symm h1
    simp [List.lookup, hk, ih h.2]

/-- Writing a score and reading it back through the Python
`d[k] = v` / `d.get(k, 0)` pair returns the written score. -/
theorem getScore_setScore (hs : List (String × Nat)) (k : String) (v : Nat) :
    getScore (setScore hs k v) k = v := by
  unfold getScore setScore
  split
  · rename_i hany
    rw [lookup_overwrite, if_pos hany]
    rfl
  · rename_i hany
    rw [lookup_append_self hs k v (by revert hany; cases hs.any fun p => p.1 == k <;> simp)]
    rfl

/-- C7: every cell returned by the food spawner avoids the snake body
and every obstacle cell. -/
theorem c7_food_spawn_clear (body obstacles cands : List Cell) (pos : Cell)
    (h : spawn_food body obstacles cands = some pos) :
    pos ∉ body ∧ pos ∉ obstacles := by
  unfold spawn_food at h
  have hp := List.find?_some h
  simp only [decide_eq_true_eq] at hp
  exact hp

/-- Witness for C7: with the snake on (1,1), an obstacle on (2,2) and the
candidate stream trying (1,1), (2,2), (3,3), the spawner returns (3,3),
which is on neither. -/
theorem c7_witness :
    spawn_food [(1, 1)] [(2, 2)] [(1, 1), (2, 2), (3, 3)] = some (3, 3) ∧
    ((3, 3) : Cell) ∉ [((1, 1) : Cell)] ∧ ((3, 3) : Cell) ∉ [((2, 2) : Cell)] :=
  ⟨by decide,
    c7_food_spawn_clear [(1, 1)] [(2, 2)] [(1, 1), (2, 2), (3, 3)] (3, 3)
      (by decide)⟩

/-- C8: `game_over` switches to the GAME_OVER screen recording the ending
mode; it writes the score into the high-score table and persists the
table exactly when the score strictly exceeds the stored best for that
mode, and leaves both the table and the store untouched otherwise. -/
theorem c8_highscore_iff (g : Game) :
    (g.score > getScore g.high_scores g.mode.key →
        g.game_over.high_scores = setScore g.high_scores g.mode.key g.score ∧
        g.game_over.stored_scores = g.game_over.high_scores ∧
        getScore g.game_over.high_scores g.mode.key = g.score) ∧
    (¬ g.score > getScore g.high_scores g.mode.key →
        g.game_over.high_scores = g.high_scores ∧
        g.game_over.stored_scores = g.stored_scores) ∧
    g.game_over.mode = Mode.GAME_OVER ∧
    g.game_over.last_mode = g.mode := by
  unfold Game.game_over
  by_cases hc : g.score > getScore g.high_scores g.mode.key
  · rw [if_pos hc]
    exact ⟨fun _ => ⟨rfl, rfl, getScore_setScore _ _ _⟩,
      fun hn => absurd hc hn, rfl, rfl⟩
  · rw [if_neg hc]
    exact ⟨fun hy => absurd hy hc, fun _ => ⟨rfl, rfl⟩, rfl, rfl⟩

/-- Witness for C8: the game `c8G` ends with score 50 against a stored
best of 30 (table and store updated to 50); the game `c8H` ends with
score 20 (both left unchanged). -/
theorem c8_witness :
    (c8G.score > getScore c8G.high_scores c8G.mode.key ∧
      c8G.game_over.high_scores =
        setScore c8G.high_scores c8G.mode.key c8G.score ∧
      c8G.game_over.stored_scores = c8G.game_over.high_scores ∧
      getScore c8G.game_over.high_scores c8G.mode.key = c8G.score) ∧
    (¬ c8H.score > getScore c8H.high_scores c8H.mode.key ∧
      c8H.game_over.high_scores = c8H.high_scores ∧
      c8H.game_over.stored_scores = c8H.stored_scores) :=
  ⟨⟨by decide, (c8_highscore_iff c8G).1 (by decide)⟩,
    ⟨by decide, ((c8_highscore_iff c8H).2.1 (by decide))⟩⟩

/-- Deleting a power-up type leaves it absent. -/
theorem hasPU_erasePU (ap : List (PowerUpType × Nat)) (t : PowerUpType) :
    hasPU (erasePU ap t) t = false := by
  unfold hasPU erasePU
  induction ap with
  | nil => rfl
  | cons p r ih =>
    by_cases hp : p.1 = t
    · simp [hp, ih]
    · simp [hp, ih]

/-- Overwriting the entries of one power-up type in place does not
change the presence of another type. -/
theorem any_map_overwrite (r : List (PowerUpType × Nat))
    (u t : PowerUpType) (v : Nat) (hne : u ≠ t) :
    ((r.map fun p => if p.1 == u then (u, v) else p).any
        fun p => p.1 == t) =
      r.any fun p => p.1 == t := by
  induction r with
  | nil => rfl
  | cons p rr ih =>
    simp only [List.map_cons, List.any_cons]
    by_cases hp : p.1 = u
    · rw [if_pos (by simp [hp])]
      have h1 : (u == t) = false := by simp [hne]
      have h2 : (p.1 == t) = false := by simp [hp, hne]
      rw [h1, h2, ih]
    · rw [if_neg (by simp [hp])]
      rw [ih]

/-- Writing one power-up type does not change the presence of another. -/
theorem hasPU_setPU_ne (ap : List (PowerUpType × Nat)) (u t : PowerUpType)
    (v : Nat) (hne : u ≠ t) : hasPU (setPU ap u v) t = hasPU ap t := by
  unfold hasPU setPU
  split
  · exact any_map_overwrite ap u t v hne
  · simp [List.any_append, hne]

/-- The power-up pickup loop never lengthens the field list. -/
theorem pickup_fst_length (head : Cell) (l : List PowerUp)
    (ap : List (PowerUpType × Nat)) :
    (pickupPowerups head l ap).1.length ≤ l.length := by
  induction l generalizing ap with
  | nil => simp [pickupPowerups]
  | cons p r ih =>
    unfold pickupPowerups
    split
    · exact le_trans (ih _) (Nat.le_succ _)
    · simpa using ih ap

/-- If a type is absent and no power-up of that type lies under the head,
the pickup loop leaves it absent. -/
theorem pickup_hasPU (head : Cell) (l : List PowerUp)
    (ap : List (PowerUpType × Nat)) (t : PowerUpType)
    (hs : hasPU ap t = false)
    (hp : ∀ p ∈ l, p.pos = head → p.type ≠ t) :
    hasPU (pickupPowerups head l ap).2 t = false := by
  induction l generalizing ap with
  | nil => exact hs
  | cons p r ih =>
    unfold pickupPowerups
    split
    · rename_i hpos
      refine ih (setPU ap p.type p.duration) ?_ ?_
      · rw [hasPU_setPU_ne _ _ _ _ (hp p (by simp) hpos.symm)]
        exact hs
      · exact fun q hq => hp q (by simp [hq])
    · exact ih ap hs fun q hq => hp q (by simp [hq])

/-- Projection facts of `game_over`: only the mode, the last mode and the
score table change. -/
theorem game_over_frame (g : Game) :
    g.game_over.snake = g.snake ∧ g.game_over.powerups = g.powerups ∧
    g.game_over.move_counter = g.move_counter ∧
    g.game_over.obstacles = g.obstacles ∧
    g.game_over.powerup_spawn_counter = g.powerup_spawn_counter ∧
    g.game_over.mode = Mode.GAME_OVER := by
  unfold Game.game_over
  by_cases hc : g.score > getScore g.high_scores g.mode.key
  · rw [if_pos hc]
    exact ⟨rfl, rfl, rfl, rfl, rfl, rfl⟩
  · rw [if_neg hc]
    exact ⟨rfl, rfl, rfl, rfl, rfl, rfl⟩

/-- Case analysis of `spawn_powerup`: either the capacity gate was open
and exactly one power-up was appended, or the field already held two and
nothing changed. -/
theorem spawn_powerup_some (g : Game) (cands : List Cell) (t : PowerUpType)
    (l : List PowerUp) (h : spawn_powerup g cands t = some l) :
    (g.powerups.length < 2 ∧ l.length = g.powerups.length + 1) ∨
    (¬ g.powerups.length < 2 ∧ l = g.powerups) := by
  unfold spawn_powerup at h
  split at h
  · rename_i hlt
    split at h
    · obtain rfl := Option.some.inj h
      exact Or.inl ⟨hlt, by simp⟩
    · exact Option.noConfusion h
  · rename_i hge
    obtain rfl := Option.some.inj h
    exact Or.inr ⟨hge, rfl⟩

/-- Projection facts of the power-up spawn stage. -/
theorem puSpawnStep_some (o : Oracle) (g g' : Game)
    (h : puSpawnStep o g = some g') :
    g'.snake = g.snake ∧ g'.mode = g.mode ∧
    g'.move_counter = g.move_counter ∧ g'.obstacles = g.obstacles ∧
    g'.time_remaining = g.time_remaining ∧ g'.food_pos = g.food_pos ∧
    g'.score = g.score ∧
    ((g.powerup_spawn_counter + 1 ≥ FPS * 10 ∧
        spawn_powerup g o.puCands o.puType = some g'.powerups) ∨
      (¬ (g.powerup_spawn_counter + 1 ≥ FPS * 10) ∧
        g'.powerups = g.powerups)) := by
  unfold puSpawnStep at h
  split at h
  · rename_i hfire
    split at h
    · rename_i pus hsp
      obtain rfl := Option.some.inj h
      exact ⟨rfl, rfl, rfl, rfl, rfl, rfl, rfl, Or.inl ⟨hfire, hsp⟩⟩
    · exact Option.noConfusion h
  · rename_i hfire
    obtain rfl := Option.some.inj h
    exact ⟨rfl, rfl, rfl, rfl, rfl, rfl, rfl, Or.inr ⟨hfire, rfl⟩⟩

/-- Projection facts of the obstacle spawn stage. -/
theorem obsSpawnStep_some (o : Oracle) (g g' : Game)
    (h : obsSpawnStep o g = some g') :
    g'.snake = g.snake ∧ g'.mode = g.mode ∧
    g'.move_counter = g.move_counter ∧ g'.powerups = g.powerups ∧
    g'.time_remaining = g.time_remaining ∧ g'.food_pos = g.food_pos ∧
    g'.score = g.score ∧
    g'.powerup_spawn_counter = g.powerup_spawn_counter := by
  unfold obsSpawnStep at h
  split at h
  · split at h
    · obtain rfl := Option.some.inj h
      exact ⟨rfl, rfl, rfl, rfl, rfl, rfl, rfl, rfl⟩
    · exact Option.noConfusion h
  · obtain rfl := Option.some.inj h
    exact ⟨rfl, rfl, rfl, rfl, rfl, rfl, rfl, rfl⟩

/-- Projection facts of the time-attack stage. -/
theorem timeStep_frame (g : Game) :
    (timeStep g).snake = g.snake ∧ (timeStep g).powerups = g.powerups ∧
    (timeStep g).move_counter = g.move_counter ∧
    (timeStep g).obstacles = g.obstacles ∧
    (timeStep g).score = g.score ∧ (timeStep g).food_pos = g.food_pos := by
  unfold timeStep
  split
  · split
    · refine ⟨(game_over_frame _).1, (game_over_frame _).2.1,
        (game_over_frame _).2.2.1, (game_over_frame _).2.2.2.1, ?_, ?_⟩
      · unfold Game.game_over
        by_cases hc : ({ g with time_remaining := g.time_remaining - 1
            } : Game).score > getScore g.high_scores
              ({ g with time_remaining := g.time_remaining - 1
                } : Game).mode.key
        · rw [if_pos hc]
        · rw [if_neg hc]
      · unfold Game.game_over
        by_cases hc : ({ g with time_remaining := g.time_remaining - 1
            } : Game).score > getScore g.high_scores
              ({ g with time_remaining := g.time_remaining - 1
                } : Game).mode.key
        · rw [if_pos hc]
        · rw [if_neg hc]
    · exact ⟨rfl, rfl, rfl, rfl, rfl, rfl⟩
  · exact ⟨rfl, rfl, rfl, rfl, rfl, rfl⟩

/-- The time-attack stage preserves the mode unless the game is in Time
Attack with at most one remaining tick. -/
theorem timeStep_mode (g : Game)
    (hm : ¬ (g.mode = Mode.TIME_ATTACK ∧ g.time_remaining ≤ 1)) :
    (timeStep g).mode = g.mode := by
  unfold timeStep
  split
  · rename_i hTA
    split
    · rename_i ht
      exact absurd ⟨hTA, by omega⟩ hm
    · rfl
  · rfl

/-- Projection facts of the food stage. -/
theorem foodStep_some (o : Oracle) (g g' : Game)
    (h : foodStep o g = some g') :
    g'.mode = g.mode ∧ g'.move_counter = g.move_counter ∧
    g'.obstacles = g.obstacles ∧ g'.powerups = g.powerups ∧
    g'.time_remaining = g.time_remaining ∧
    g'.powerup_spawn_counter = g.powerup_spawn_counter ∧
    g'.snake.body = g.snake.body ∧
    g'.snake.direction = g.snake.direction ∧
    g'.snake.active_powerups = g.snake.active_powerups := by
  unfold foodStep at h
  split at h
  · split at h
    · obtain rfl := Option.some.inj h
      exact ⟨rfl, rfl, rfl, rfl, rfl, rfl, rfl, rfl, rfl⟩
    · exact Option.noConfusion h
  · obtain rfl := Option.some.inj h
    exact ⟨rfl, rfl, rfl, rfl, rfl, rfl, rfl, rfl, rfl⟩

/-- Projection facts of the pickup stage. -/
theorem pickupStep_facts (g : Game) :
    (pickupStep g).mode = g.mode ∧
    (pickupStep g).move_counter = g.move_counter ∧
    (pickupStep g).obstacles = g.obstacles ∧
    (pickupStep g).time_remaining = g.time_remaining ∧
    (pickupStep g).powerup_spawn_counter = g.powerup_spawn_counter ∧
    (pickupStep g).snake.body = g.snake.body ∧
    (pickupStep g).snake.direction = g.snake.direction ∧
    (pickupStep g).snake.grow_pending = g.snake.grow_pending ∧
    (pickupStep g).powerups =
      (pickupPowerups g.snake.get_head g.powerups
        g.snake.active_powerups).1 ∧
    (pickupStep g).snake.active_powerups =
      (pickupPowerups g.snake.get_head g.powerups
        g.snake.active_powerups).2 :=
  ⟨rfl, rfl, rfl, rfl, rfl, rfl, rfl, rfl, rfl, rfl⟩

/-- Equal bodies give equal heads. -/
theorem get_head_congr (s1 s2 : Snake) (h : s1.body = s2.body) :
    s1.get_head = s2.get_head := by
  unfold Snake.get_head
  rw [h]

/-- Combined facts about the per-tick tail: the snake, counter, score and
food are untouched; the power-up count rises by at most one, stays within
the cap, and rises only when the 10-second counter fired with fewer than
2 on the field; the mode survives unless Time Attack just expired. -/
theorem tickTail_some (o : Oracle) (g g' : Game)
    (h : tickTail o g = some g') :
    g'.snake = g.snake ∧ g'.move_counter = g.move_counter ∧
    g'.score = g.score ∧ g'.food_pos = g.food_pos ∧
    g'.powerups.length ≤ g.powerups.length + 1 ∧
    (g.powerups.length ≤ 2 → g'.powerups.length ≤ 2) ∧
    (g'.powerups.length > g.powerups.length →
      g.powerup_spawn_counter + 1 ≥ FPS * 10 ∧ g.powerups.length < 2) ∧
    (¬ (g.mode = Mode.TIME_ATTACK ∧ g.time_remaining ≤ 1) →
      g'.mode = g.mode) := by
  unfold tickTail at h
  rcases Option.bind_eq_some.mp h with ⟨g1, h1, h2⟩
  rcases Option.map_eq_some'.mp h2 with ⟨g2, h3, hg'⟩
  subst hg'
  obtain ⟨p_sn, p_mo, p_mc, p_ob, p_tr, p_fp, p_sc, p_pu⟩ :=
    puSpawnStep_some o g g1 h1
  obtain ⟨q_sn, q_mo, q_mc, q_pu, q_tr, q_fp, q_sc, q_ct⟩ :=
    obsSpawnStep_some o g1 g2 h3
  obtain ⟨t_sn, t_pu, t_mc, t_ob, t_sc, t_fp⟩ := timeStep_frame g2
  have hpu2 : (timeStep g2).powerups = g1.powerups := t_pu.trans q_pu
  have hlen : g1.powerups.length ≤ g.powerups.length + 1 ∧
      (g.powerups.length ≤ 2 → g1.powerups.length ≤ 2) ∧
      (g1.powerups.length > g.powerups.length →
        g.powerup_spawn_counter + 1 ≥ FPS * 10 ∧
        g.powerups.length < 2) := by
    rcases p_pu with ⟨hfire, hsp⟩ | ⟨hfire, heq⟩
    · rcases spawn_powerup_some g o.puCands o.puType g1.powerups hsp with
        ⟨hlt, hl⟩ | ⟨hge, hl⟩
      · exact ⟨by omega, fun _ => by omega, fun _ => ⟨hfire, hlt⟩⟩
      · rw [hl]
        exact ⟨by omega, fun h2 => h2, fun hgt => absurd hgt (by omega)⟩
    · rw [heq]
      exact ⟨by omega, fun h2 => h2, fun hgt => absurd hgt (by omega)⟩
  refine ⟨t_sn.trans (q_sn.trans p_sn), t_mc.trans (q_mc.trans p_mc),
    t_sc.trans (q_sc.trans p_sc), t_fp.trans (q_fp.trans p_fp),
    by rw [hpu2]; exact hlen.1,
    fun hc => by rw [hpu2]; exact hlen.2.1 hc,
    fun hg => hlen.2.2 (by rw [hpu2] at hg; exact hg), fun hm => ?_⟩
  have hmode2 : (timeStep g2).mode = g2.mode := by
    refine timeStep_mode g2 fun hcon => hm ?_
    rcases hcon with ⟨hmo, htr⟩
    rw [q_mo, p_mo] at hmo
    rw [q_tr, p_tr] at htr
    exact ⟨hmo, htr⟩
  rw [hmode2, q_mo, p_mo]

/-- Combined facts about the food, pickup and tail stages taken
together. -/
theorem afterObstacle_some (o : Oracle) (g g' : Game)
    (h : afterObstacle o g = some g') :
    g'.snake.body = g.snake.body ∧
    g'.snake.direction = g.snake.direction ∧
    g'.move_counter = g.move_counter ∧
    g'.powerups.length ≤ g.powerups.length + 1 ∧
    (g.powerups.length ≤ 2 → g'.powerups.length ≤ 2) ∧
    (g'.powerups.length > g.powerups.length →
      g.powerup_spawn_counter + 1 ≥ FPS * 10 ∧ g.powerups.length < 2) ∧
    (¬ (g.mode = Mode.TIME_ATTACK ∧ g.time_remaining ≤ 1) →
      g'.mode = g.mode) ∧
    (hasPU g.snake.active_powerups .SHIELD = false →
      (∀ p ∈ g.powerups, p.pos = g.snake.get_head → p.type ≠ .SHIELD) →
      hasPU g'.snake.active_powerups .SHIELD = false) := by
  unfold afterObstacle at h
  rcases Option.bind_eq_some.mp h with ⟨g1, hf, ht⟩
  obtain ⟨f_mo, f_mc, f_ob, f_pu, f_tr, f_ct, f_bd, f_dr, f_ap⟩ :=
    foodStep_some o g g1 hf
  obtain ⟨k_mo, k_mc, k_ob, k_tr, k_ct, k_bd, k_dr, k_gp, k_pu, k_ap⟩ :=
    pickupStep_facts g1
  obtain ⟨t_sn, t_mc, t_sc, t_fp, t_le, t_cap, t_gr, t_mo⟩ :=
    tickTail_some o (pickupStep g1) g' ht
  have hhead : g1.snake.get_head = g.snake.get_head :=
    get_head_congr _ _ f_bd
  have hpickle : (pickupStep g1).powerups.length ≤ g.powerups.length := by
    rw [k_pu, ← f_pu]
    exact pickup_fst_length _ _ _
  have hbody : g'.snake.body = g.snake.body := by
    rw [congrArg Snake.body t_sn, k_bd, f_bd]
  have hdir : g'.snake.direction = g.snake.direction := by
    rw [congrArg Snake.direction t_sn, k_dr, f_dr]
  have hmc : g'.move_counter = g.move_counter := by
    rw [t_mc, k_mc, f_mc]
  refine ⟨hbody, hdir, hmc, by omega, fun hc => ?_, fun hg => ?_,
    fun hm => ?_, fun hs hp => ?_⟩
  · exact t_cap (le_trans hpickle hc)
  · have hgr2 := t_gr (by omega)
    have hct : (pickupStep g1).powerup_spawn_counter =
        g.powerup_spawn_counter := by rw [k_ct, f_ct]
    rw [hct] at hgr2
    exact ⟨hgr2.1, by omega⟩
  · have hm1 : ¬ ((pickupStep g1).mode = Mode.TIME_ATTACK ∧
        (pickupStep g1).time_remaining ≤ 1) := by
      rw [k_mo, f_mo, k_tr, f_tr]
      exact hm
    rw [t_mo hm1, k_mo, f_mo]
  · have hap : hasPU (pickupStep g1).snake.active_powerups .SHIELD =
        false := by
      rw [k_ap]
      refine pickup_hasPU _ _ _ _ ?_ ?_
      · rw [f_ap]; exact hs
      · rw [f_pu, hhead]
        exact hp
    rw [congrArg Snake.active_powerups t_sn]
    exact hap

/-- Combined facts about the post-move block on every path, including
the Shield-absorbed obstacle path and the fatal obstacle path. -/
theorem postMove_some (o : Oracle) (gh : Bool) (g g' : Game)
    (h : postMove o gh g = some g') :
    g'.snake.body = g.snake.body ∧ g'.move_counter = g.move_counter ∧
    (g.powerups.length ≤ 2 → g'.powerups.length ≤ 2) ∧
    (g'.powerups.length > g.powerups.length →
      g.powerup_spawn_counter + 1 ≥ FPS * 10 ∧ g.powerups.length < 2) := by
  unfold postMove at h
  split at h
  · split at h
    · obtain ⟨a_bd, a_dr, a_mc, a_le, a_cap, a_gr, a_mo, a_sh⟩ :=
        afterObstacle_some o _ g' h
      exact ⟨a_bd, a_mc, a_cap, a_gr⟩
    · obtain rfl := (Option.some.inj h).symm
      obtain ⟨o_sn, o_pu, o_mc, o_ob, o_ct, o_mo⟩ := game_over_frame g
      refine ⟨congrArg Snake.body o_sn, o_mc,
        fun hc => by rw [o_pu]; exact hc,
        fun hg => by rw [o_pu] at hg; exact absurd hg (by omega)⟩
  · obtain ⟨a_bd, a_dr, a_mc, a_le, a_cap, a_gr, a_mo, a_sh⟩ :=
      afterObstacle_some o g g' h
    exact ⟨a_bd, a_mc, a_cap, a_gr⟩

/-- Combined facts about the movement block: the counter is untouched,
the power-up gates hold, and the body ends as the moved body on a
successful move and as the original body on a blocked one. -/
theorem moveStage_some (o : Oracle) (g g' : Game)
    (h : moveStage o g = some g') :
    g'.move_counter = g.move_counter ∧
    (g.powerups.length ≤ 2 → g'.powerups.length ≤ 2) ∧
    (g'.powerups.length > g.powerups.length →
      g.powerup_spawn_counter + 1 ≥ FPS * 10 ∧ g.powerups.length < 2) ∧
    (∀ s1, g.snake.move (hasPU g.snake.active_powerups .GHOST) = some s1 →
      g'.snake.body = s1.body) ∧
    (g.snake.move (hasPU g.snake.active_powerups .GHOST) = none →
      g'.snake.body = g.snake.body) := by
  unfold moveStage at h
  split at h
  · rename_i s heq
    obtain ⟨p_bd, p_mc, p_cap, p_gr⟩ := postMove_some o _ _ g' h
    refine ⟨p_mc, p_cap, p_gr, fun s1 h1 => ?_, fun h1 => ?_⟩
    · obtain rfl := Option.some.inj (heq.symm.trans h1)
      exact p_bd
    · exact Option.noConfusion (heq.symm.trans h1)
  · rename_i heq
    split at h
    · obtain ⟨p_bd, p_mc, p_cap, p_gr⟩ := postMove_some o _ _ g' h
      refine ⟨p_mc, p_cap, p_gr, fun s1 h1 => ?_, fun h1 => p_bd⟩
      exact Option.noConfusion (heq.symm.trans h1)
    · obtain rfl := (Option.some.inj h).symm
      obtain ⟨o_sn, o_pu, o_mc, o_ob, o_ct, o_mo⟩ := game_over_frame g
      refine ⟨o_mc, fun hc => by rw [o_pu]; exact hc,
        fun hg => by rw [o_pu] at hg; exact absurd hg (by omega),
        fun s1 h1 => ?_, fun h1 => congrArg Snake.body o_sn⟩
      exact Option.noConfusion (heq.symm.trans h1)

/-- Reduction of `update` outside an active round. -/
theorem update_inactive (o : Oracle) (g : Game)
    (h : g.mode.isActive = false) : Game.update o g = some g := by
  unfold Game.update
  rw [h, if_pos rfl]

/-- Reduction of `update` on a tick whose counter reaches the cadence. -/
theorem update_fire (o : Oracle) (g : Game)
    (ha : g.mode.isActive = true)
    (hc : g.move_counter + 1 ≥ framesPerMove (decStage g)) :
    Game.update o g = moveStage o { decStage g with move_counter := 0 } := by
  unfold Game.update
  rw [ha, if_neg (by simp), if_pos hc]

/-- Reduction of `update` on a tick whose counter stays below the
cadence. -/
theorem update_nofire (o : Oracle) (g : Game)
    (ha : g.mode.isActive = true)
    (hc : ¬ g.move_counter + 1 ≥ framesPerMove (decStage g)) :
    Game.update o g =
      tickTail o { decStage g with move_counter := g.move_counter + 1 } := by
  unfold Game.update
  rw [ha, if_neg (by simp), if_neg hc]

/-- C6 (amended): on an active tick the cadence is
`max(1, trunc(FPS / effective_speed))` — `framesPerMove`, built with the
code's `int` truncation rather than the specified `round` — the snake
advances exactly once when the incremented counter reaches it (counter
reset to 0), and does not advance otherwise (counter kept). -/
theorem c6_cadence_truncated (o : Oracle) (g g' : Game)
    (ha : g.mode.isActive = true) (hu : Game.update o g = some g') :
    (g.move_counter + 1 < framesPerMove (decStage g) →
      g'.move_counter = g.move_counter + 1 ∧
      g'.snake.body = g.snake.body) ∧
    (g.move_counter + 1 ≥ framesPerMove (decStage g) →
      g'.move_counter = 0 ∧
      (∀ s1, (decStage g).snake.move
          (hasPU (decStage g).snake.active_powerups .GHOST) = some s1 →
        g'.snake.body = s1.body) ∧
      ((decStage g).snake.move
          (hasPU (decStage g).snake.active_powerups .GHOST) = none →
        g'.snake.body = g.snake.body)) := by
  by_cases hc : g.move_counter + 1 ≥ framesPerMove (decStage g)
  · rw [update_fire o g ha hc] at hu
    obtain ⟨m_mc, m_cap, m_gr, m_some, m_none⟩ := moveStage_some o _ g' hu
    exact ⟨fun hlt => absurd hc (by omega),
      fun _ => ⟨m_mc, fun s1 h1 => m_some s1 h1, fun h1 => m_none h1⟩⟩
  · rw [update_nofire o g ha hc] at hu
    obtain ⟨t_sn, t_mc, t_sc, t_fp, t_le, t_cap, t_gr, t_mo⟩ :=
      tickTail_some o _ g' hu
    exact ⟨fun _ => ⟨t_mc, (congrArg Snake.body t_sn).trans rfl⟩,
      fun hge => absurd hge hc⟩

/-- C9: a power-up appears only when the 10-second counter fires and the
field holds fewer than 2; the two gates are separate checks (the spawner
itself enforces the capacity, the tick the timer), the count never
exceeds 2 across any tick, and a fresh session starts with none. -/
theorem c9_powerup_gates :
    (∀ (o : Oracle) (g g' : Game), Game.update o g = some g' →
      g.powerups.length ≤ 2 → g'.powerups.length ≤ 2) ∧
    (∀ (g : Game) (cands : List Cell) (g0 : Game),
      Game.reset_game g cands = some g0 → g0.powerups = []) ∧
    (∀ (g : Game) (cands : List Cell) (t : PowerUpType) (l : List PowerUp),
      spawn_powerup g cands t = some l →
      (g.powerups.length < 2 ∧ l.length = g.powerups.length + 1) ∨
      (¬ g.powerups.length < 2 ∧ l = g.powerups)) ∧
    (∀ (o : Oracle) (g g' : Game), puSpawnStep o g = some g' →
      ¬ g.powerup_spawn_counter + 1 ≥ FPS * 10 →
      g'.powerups = g.powerups) ∧
    (∀ (o : Oracle) (g g' : Game), Game.update o g = some g' →
      g'.powerups.length > g.powerups.length →
      g.powerup_spawn_counter + 1 ≥ FPS * 10 ∧ g.powerups.length < 2) := by
  refine ⟨fun o g g' hu hcap => ?_, fun g cands g0 hr => ?_,
    fun g cands t l hs => spawn_powerup_some g cands t l hs,
    fun o g g' hps hnf => ?_, fun o g g' hu hgr => ?_⟩
  · by_cases ha : g.mode.isActive = true
    · by_cases hc : g.move_counter + 1 ≥ framesPerMove (decStage g)
      · rw [update_fire o g ha hc] at hu
        obtain ⟨m_mc, m_cap, m_gr, m_some, m_none⟩ :=
          moveStage_some o _ g' hu
        exact m_cap hcap
      · rw [update_nofire o g ha hc] at hu
        obtain ⟨t_sn, t_mc, t_sc, t_fp, t_le, t_cap, t_gr, t_mo⟩ :=
          tickTail_some o _ g' hu
        exact t_cap hcap
    · have ha' : g.mode.isActive = false := by
        revert ha; cases g.mode.isActive <;> simp
      rw [update_inactive o g ha'] at hu
      obtain rfl := Option.some.inj hu
      exact hcap
  · unfold Game.reset_game at hr
    split at hr
    · obtain rfl := (Option.some.inj hr).symm
      rfl
    · exact Option.noConfusion hr
  · obtain ⟨p_sn, p_mo, p_mc, p_ob, p_tr, p_fp, p_sc, p_pu⟩ :=
      puSpawnStep_some o g g' hps
    rcases p_pu with ⟨hfire, _⟩ | ⟨_, heq⟩
    · exact absurd hfire hnf
    · exact heq
  · by_cases ha : g.mode.isActive = true
    · by_cases hc : g.move_counter + 1 ≥ framesPerMove (decStage g)
      · rw [update_fire o g ha hc] at hu
        obtain ⟨m_mc, m_cap, m_gr, m_some, m_none⟩ :=
          moveStage_some o _ g' hu
        exact m_gr hgr
      · rw [update_nofire o g ha hc] at hu
        obtain ⟨t_sn, t_mc, t_sc, t_fp, t_le, t_cap, t_gr, t_mo⟩ :=
          tickTail_some o _ g' hu
        exact t_gr hgr
    · have ha' : g.mode.isActive = false := by
        revert ha; cases g.mode.isActive <;> simp
      rw [update_inactive o g ha'] at hu
      obtain rfl := Option.some.inj hu
      exact absurd hgr (by omega)

/-- C5 (amended): on a tick with a fatal collision — a blocked move in
any mode, or a Survival obstacle hit without ghost — an active Shield is
consumed: it disappears from `active_powerups`, that collision's fatal
outcome is cancelled, and unless the same tick runs into a second fatal
collision the tick does not reach GameOver and (absent a Shield pickup
under the head) the Shield stays absent at its end; a fatal collision of
either kind without a Shield ends the game — also when it is the
Survival obstacle under the unmoved head right after a Shield-absorbed
blocked move of the same tick. -/
theorem c5_shield_single_use :
    (∀ (o : Oracle) (g g' : Game),
      g.mode.isActive = true →
      hasPU (decStage g).snake.active_powerups .SHIELD = true →
      g.move_counter + 1 ≥ framesPerMove (decStage g) →
      (decStage g).snake.move
          (hasPU (decStage g).snake.active_powerups .GHOST) = none →
      ¬ (g.mode = Mode.SURVIVAL ∧
          hasPU (decStage g).snake.active_powerups .GHOST = false ∧
          g.snake.get_head ∈ g.obstacles) →
      (∀ p ∈ g.powerups, p.pos = g.snake.get_head →
          p.type ≠ PowerUpType.SHIELD) →
      ¬ (g.mode = Mode.TIME_ATTACK ∧ g.time_remaining ≤ 1) →
      Game.update o g = some g' →
      hasPU g'.snake.active_powerups .SHIELD = false ∧
        g'.mode = g.mode) ∧
    (∀ (o : Oracle) (g g' : Game) (s1 : Snake),
      g.mode = Mode.SURVIVAL →
      g.move_counter + 1 ≥ framesPerMove (decStage g) →
      (decStage g).snake.move
          (hasPU (decStage g).snake.active_powerups .GHOST) = some s1 →
      hasPU (decStage g).snake.active_powerups .GHOST = false →
      s1.get_head ∈ g.obstacles →
      hasPU s1.active_powerups .SHIELD = true →
      (∀ p ∈ g.powerups, p.pos = s1.get_head →
          p.type ≠ PowerUpType.SHIELD) →
      Game.update o g = some g' →
      hasPU g'.snake.active_powerups .SHIELD = false ∧
        g'.mode = g.mode) ∧
    (∀ (o : Oracle) (g g' : Game),
      g.mode.isActive = true →
      hasPU (decStage g).snake.active_powerups .SHIELD = false →
      g.move_counter + 1 ≥ framesPerMove (decStage g) →
      (decStage g).snake.move
          (hasPU (decStage g).snake.active_powerups .GHOST) = none →
      Game.update o g = some g' →
      g'.mode = Mode.GAME_OVER) ∧
    (∀ (o : Oracle) (g g' : Game) (s1 : Snake),
      g.mode = Mode.SURVIVAL →
      g.move_counter + 1 ≥ framesPerMove (decStage g) →
      (decStage g).snake.move
          (hasPU (decStage g).snake.active_powerups .GHOST) = some s1 →
      hasPU (decStage g).snake.active_powerups .GHOST = false →
      s1.get_head ∈ g.obstacles →
      hasPU s1.active_powerups .SHIELD = false →
      Game.update o g = some g' →
      g'.mode = Mode.GAME_OVER) ∧
    (∀ (o : Oracle) (g g' : Game),
      g.mode = Mode.SURVIVAL →
      hasPU (decStage g).snake.active_powerups .SHIELD = true →
      g.move_counter + 1 ≥ framesPerMove (decStage g) →
      (decStage g).snake.move
          (hasPU (decStage g).snake.active_powerups .GHOST) = none →
      hasPU (decStage g).snake.active_powerups .GHOST = false →
      g.snake.get_head ∈ g.obstacles →
      Game.update o g = some g' →
      g'.mode = Mode.GAME_OVER) := by
  refine ⟨fun o g g' ha hsh hc hmv hobs hpu htime hu => ?_,
    fun o g g' s1 hmode hc hmv hgh hob hshv hpu hu => ?_,
    fun o g g' ha hsh hc hmv hu => ?_,
    fun o g g' s1 hmode hc hmv hgh hob hnsh hu => ?_,
    fun o g g' hmode hsh hc hmv hgh hob hu => ?_⟩
  · rw [update_fire o g ha hc] at hu
    unfold moveStage at hu
    split at hu
    · rename_i s heq
      exact Option.noConfusion (hmv.symm.trans heq)
    · split at hu
      · unfold postMove at hu
        split at hu
        · rename_i hcon
          exact absurd hcon hobs
        · obtain ⟨a_bd, a_dr, a_mc, a_le, a_cap, a_gr, a_mo, a_sh⟩ :=
            afterObstacle_some o _ g' hu
          exact ⟨a_sh (hasPU_erasePU _ _) hpu, (a_mo htime).trans rfl⟩
      · rename_i hnsh
        exact absurd hsh hnsh
  · rw [update_fire o g (by rw [hmode]; rfl) hc] at hu
    unfold moveStage at hu
    dsimp only at hu
    split at hu
    · rename_i s heq
      obtain rfl := Option.some.inj (hmv.symm.trans heq)
      unfold postMove at hu
      dsimp only at hu
      split at hu
      · obtain ⟨a_bd, a_dr, a_mc, a_le, a_cap, a_gr, a_mo, a_sh⟩ :=
          afterObstacle_some o _ g' hu
        refine ⟨a_sh (hasPU_erasePU _ _) hpu, (a_mo ?_).trans rfl⟩
        rintro ⟨hta, -⟩
        have hta' : g.mode = Mode.TIME_ATTACK := hta
        rw [hmode] at hta'
        exact Mode.noConfusion hta'
      · rename_i hncon
        exact absurd ⟨hmode, hgh, hob⟩ hncon
    · rename_i heq
      exact Option.noConfusion (hmv.symm.trans heq)
  · rw [update_fire o g ha hc] at hu
    unfold moveStage at hu
    split at hu
    · rename_i s heq
      exact Option.noConfusion (hmv.symm.trans heq)
    · split at hu
      · rename_i hstrue
        have h2 : hasPU (decStage g).snake.active_powerups
            PowerUpType.SHIELD = true := hstrue
        rw [hsh] at h2
        exact absurd h2 (by decide)
      · obtain rfl := (Option.some.inj hu).symm
        exact (game_over_frame _).2.2.2.2.2
  · rw [update_fire o g (by rw [hmode]; rfl) hc] at hu
    unfold moveStage at hu
    dsimp only at hu
    split at hu
    · rename_i s heq
      obtain rfl := Option.some.inj (hmv.symm.trans heq)
      unfold postMove at hu
      dsimp only at hu
      split at hu
      · rw [hnsh, if_neg (by decide : ¬ (false = true))] at hu
        obtain rfl := (Option.some.inj hu).symm
        exact (game_over_frame _).2.2.2.2.2
      · rename_i hncon
        exact absurd ⟨hmode, hgh, hob⟩ hncon
    · rename_i heq
      exact Option.noConfusion (hmv.symm.trans heq)
  · rw [update_fire o g (by rw [hmode]; rfl) hc] at hu
    unfold moveStage at hu
    dsimp only at hu
    split at hu
    · rename_i s heq
      exact Option.noConfusion (hmv.symm.trans heq)
    · split at hu
      · unfold postMove at hu
        dsimp only at hu
        split at hu
        · split at hu
          · rename_i hst
            rw [hasPU_erasePU] at hst
            exact absurd hst (by decide)
          · obtain rfl := (Option.some.inj hu).symm
            exact (game_over_frame _).2.2.2.2.2
        · rename_i hncon
          exact absurd ⟨hmode, hgh, hob⟩ hncon
      · rename_i hnsh
        exact absurd hsh hnsh

/-- C10: when the move is blocked and absorbed by the Shield, the snake
does not advance: the whole tick reduces to the post-move checks run on
a state whose snake keeps the original body, head, direction and pending
growth, and whose only change is the deleted Shield entry. -/
theorem c10_blocked_shield_no_advance (o : Oracle) (g : Game)
    (ha : g.mode.isActive = true)
    (hc : g.move_counter + 1 ≥ framesPerMove (decStage g))
    (hsh : hasPU (decStage g).snake.active_powerups PowerUpType.SHIELD
      = true)
    (hmv : (decStage g).snake.move
        (hasPU (decStage g).snake.active_powerups PowerUpType.GHOST)
      = none) :
    Game.update o g =
      postMove o (hasPU (decStage g).snake.active_powerups PowerUpType.GHOST)
        { decStage g with
          move_counter := 0
          snake := { (decStage g).snake with
            active_powerups :=
              erasePU (decStage g).snake.active_powerups
                PowerUpType.SHIELD } } ∧
    ({ (decStage g).snake with
        active_powerups :=
          erasePU (decStage g).snake.active_powerups PowerUpType.SHIELD
      } : Snake).body = g.snake.body ∧
    ({ (decStage g).snake with
        active_powerups :=
          erasePU (decStage g).snake.active_powerups PowerUpType.SHIELD
      } : Snake).direction = g.snake.direction ∧
    ({ (decStage g).snake with
        active_powerups :=
          erasePU (decStage g).snake.active_powerups PowerUpType.SHIELD
      } : Snake).grow_pending = g.snake.grow_pending ∧
    ({ (decStage g).snake with
        active_powerups :=
          erasePU (decStage g).snake.active_powerups PowerUpType.SHIELD
      } : Snake).get_head = g.snake.get_head ∧
    hasPU ({ (decStage g).snake with
        active_powerups :=
          erasePU (decStage g).snake.active_powerups PowerUpType.SHIELD
      } : Snake).active_powerups PowerUpType.SHIELD = false := by
  refine ⟨?_, rfl, rfl, rfl, rfl, hasPU_erasePU _ _⟩
  rw [update_fire o g ha hc]
  unfold moveStage
  dsimp only
  rw [hmv, if_pos hsh]

/-- Counterexample to C6 as worded: at `c6X` (Classic, SpeedBoost,
length 3, effective speed 12.15) the code's cadence `int(60/12.15)` is
4, while the claimed `max(1, round(60/12.15))` is 5. -/
theorem c6_counterexample :
    framesPerMove c6X = 4 ∧ specCadence c6X = 5 ∧
    ¬ framesPerMove c6X = specCadence c6X := by
  have hb : hasPU [(PowerUpType.SPEED_BOOST, 100)]
      PowerUpType.SPEED_BOOST = true := by decide
  have h4 : framesPerMove c6X = 4 := by
    norm_num [framesPerMove, currentSpeed, pyInt, c6X, baseGame, hb, FPS]
    rfl
  have h5 : specCadence c6X = 5 := by
    norm_num [specCadence, currentSpeed, c6X, baseGame, hb, FPS, round_eq]
    rfl
  exact ⟨h4, h5, by rw [h4, h5]; decide⟩

/-- Witness for C6 at the concrete tick `c6G`: the counter is below the
cadence 7, so the tick leaves the body alone and advances the counter. -/
theorem c6_witness :
    c6Gres.move_counter = c6G.move_counter + 1 ∧
    c6Gres.snake.body = c6G.snake.body := by
  have h1 : decStage c6G = c6G := by decide
  have h3 : ¬ (Mode.TIME_ATTACK = Mode.CLASSIC) := by decide
  have hb : hasPU ([] : List (PowerUpType × Nat))
      PowerUpType.SPEED_BOOST = false := by decide
  have h7 : framesPerMove (decStage c6G) = 7 := by
    rw [h1]
    norm_num [framesPerMove, currentSpeed, pyInt, c6G, baseGame, hb, FPS,
      if_neg h3]
    rfl
  have hu : Game.update emptyOracle c6G = some c6Gres := by
    rw [update_nofire emptyOracle c6G rfl (by rw [h7]; decide)]
    decide
  exact (c6_cadence_truncated emptyOracle c6G c6Gres rfl hu).1 (by rw [h7]; decide)

/-- Witness for C9: the tick at `c9G` fires the 10-second counter and
spawns one power-up (still within the cap of 2); `reset_game` starts
with none; the spawner reports the capacity case; a non-firing counter
leaves the field untouched. -/
theorem c9_witness :
    (Game.update c9O c9G = some c9Gres ∧ c9Gres.powerups.length ≤ 2) ∧
    (c9G.powerup_spawn_counter + 1 ≥ FPS * 10 ∧
      c9G.powerups.length < 2) ∧
    (Game.reset_game c9G [(3, 3)] = some c9Rres ∧ c9Rres.powerups = []) ∧
    ((c9G.powerups.length < 2 ∧
        c9pus.length = c9G.powerups.length + 1) ∨
      (¬ c9G.powerups.length < 2 ∧ c9pus = c9G.powerups)) ∧
    (puSpawnStep c9O c9H = some c9Hres ∧
      c9Hres.powerups = c9H.powerups) := by
  have h1 : decStage c9G = c9G := by decide
  have hb : hasPU ([] : List (PowerUpType × Nat))
      PowerUpType.SPEED_BOOST = false := by decide
  have h7 : framesPerMove (decStage c9G) = 7 := by
    rw [h1]
    norm_num [framesPerMove, currentSpeed, pyInt, c9G, baseGame, hb, FPS]
    rfl
  have hu : Game.update c9O c9G = some c9Gres := by
    rw [update_nofire c9O c9G rfl (by rw [h7]; decide)]
    decide
  refine ⟨⟨hu, c9_powerup_gates.1 c9O c9G c9Gres hu (by decide)⟩,
    c9_powerup_gates.2.2.2.2 c9O c9G c9Gres hu (by decide),
    ⟨by decide, c9_powerup_gates.2.1 c9G [(3, 3)] c9Rres (by decide)⟩,
    c9_powerup_gates.2.2.1 c9G [(5, 5)] PowerUpType.SPEED_BOOST c9pus
      (by decide),
    ⟨by decide, c9_powerup_gates.2.2.2.1 c9O c9H c9Hres (by decide)
      (by decide)⟩⟩

/-- Witness for C5 at five concrete ticks: `c5A` (blocked wall move,
Shield absorbs, round goes on shieldless), `c5B` (Survival obstacle hit,
Shield absorbs), `c5C` (blocked wall move with no Shield: GameOver),
`c5D` (Survival obstacle hit with no Shield: GameOver) and `c5X`
(Shield-absorbed blocked move followed in the same tick by the
unshielded obstacle under the unmoved head: GameOver). -/
theorem c5_witness :
    (hasPU c5Ares.snake.active_powerups PowerUpType.SHIELD = false ∧
      c5Ares.mode = c5A.mode) ∧
    (hasPU c5Bres.snake.active_powerups PowerUpType.SHIELD = false ∧
      c5Bres.mode = c5B.mode) ∧
    c5Cres.mode = Mode.GAME_OVER ∧
    c5Dres.mode = Mode.GAME_OVER ∧
    c5Xres.mode = Mode.GAME_OVER := by
  have hbA : hasPU [(PowerUpType.SHIELD, 4)]
      PowerUpType.SPEED_BOOST = false := by decide
  have hbC : hasPU ([] : List (PowerUpType × Nat))
      PowerUpType.SPEED_BOOST = false := by decide
  have h3 : ¬ (Mode.SURVIVAL = Mode.CLASSIC) := by decide
  have h1A : decStage c5A = { c5A with
      snake := { c5A.snake with
        active_powerups := [(PowerUpType.SHIELD, 4)] } } := by decide
  have h7A : framesPerMove (decStage c5A) = 7 := by
    rw [h1A]
    norm_num [framesPerMove, currentSpeed, pyInt, c5A, baseGame, hbA, FPS]
    rfl
  have huA : Game.update emptyOracle c5A = some c5Ares := by
    rw [update_fire emptyOracle c5A rfl (by rw [h7A]; decide)]
    decide
  have h1B : decStage c5B = { c5B with
      snake := { c5B.snake with
        active_powerups := [(PowerUpType.SHIELD, 4)] } } := by decide
  have h7B : framesPerMove (decStage c5B) = 7 := by
    rw [h1B]
    norm_num [framesPerMove, currentSpeed, pyInt, c5B, baseGame, hbA, FPS,
      if_neg h3]
    rfl
  have huB : Game.update emptyOracle c5B = some c5Bres := by
    rw [update_fire emptyOracle c5B rfl (by rw [h7B]; decide)]
    decide
  have h1C : decStage c5C = c5C := by decide
  have h7C : framesPerMove (decStage c5C) = 7 := by
    rw [h1C]
    norm_num [framesPerMove, currentSpeed, pyInt, c5C, baseGame, hbC, FPS]
    rfl
  have huC : Game.update emptyOracle c5C = some c5Cres := by
    rw [update_fire emptyOracle c5C rfl (by rw [h7C]; decide)]
    decide
  have h1D : decStage c5D = c5D := by decide
  have h7D : framesPerMove (decStage c5D) = 7 := by
    rw [h1D]
    norm_num [framesPerMove, currentSpeed, pyInt, c5D, baseGame, hbC, FPS,
      if_neg h3]
    rfl
  have huD : Game.update emptyOracle c5D = some c5Dres := by
    rw [update_fire emptyOracle c5D rfl (by rw [h7D]; decide)]
    decide
  have h1X : decStage c5X = { c5X with
      snake := { c5X.snake with
        active_powerups := [(PowerUpType.SHIELD, 4)] } } := by decide
  have h7X : framesPerMove (decStage c5X) = 7 := by
    rw [h1X]
    norm_num [framesPerMove, currentSpeed, pyInt, c5X, baseGame, hbA, FPS,
      if_neg h3]
    rfl
  have huX : Game.update emptyOracle c5X = some c5Xres := by
    rw [update_fire emptyOracle c5X rfl (by rw [h7X]; decide)]
    decide
  exact ⟨c5_shield_single_use.1 emptyOracle c5A c5Ares rfl (by decide)
      (by rw [h7A]; decide) (by decide) (by decide) (by decide)
      (by decide) huA,
    c5_shield_single_use.2.1 emptyOracle c5B c5Bres c5Bs1 rfl
      (by rw [h7B]; decide) (by decide) (by decide) (by decide)
      (by decide) (by decide) huB,
    c5_shield_single_use.2.2.1 emptyOracle c5C c5Cres rfl (by decide)
      (by rw [h7C]; decide) (by decide) huC,
    c5_shield_single_use.2.2.2.1 emptyOracle c5D c5Dres c5Ds1 (by decide)
      (by rw [h7D]; decide) (by decide) (by decide) (by decide)
      (by decide) huD,
    c5_shield_single_use.2.2.2.2 emptyOracle c5X c5Xres (by decide)
      (by decide) (by rw [h7X]; decide) (by decide) (by decide)
      (by decide) huX⟩

/-- Counterexample to C5 as frozen.  At `c5X` — Survival mode, Shield
active, Ghost expiring this tick, head parked on an obstacle (the `c5W`
tick shows key enabling step of the trace: a ghosted snake moves onto an
obstacle and survives, since the obstacle check is skipped under Ghost;
idle frames then run the Ghost timer down), wall ahead — the tick meets
an otherwise-fatal blocked move with Shield in `active_powerups`, the
Shield is consumed, and the GameOver transition still occurs on that
very tick, from the now-unshielded obstacle under the unmoved head. -/
theorem c5_counterexample :
    Game.update emptyOracle c5W = some c5Wres ∧
    hasPU (decStage c5X).snake.active_powerups PowerUpType.SHIELD
      = true ∧
    (decStage c5X).snake.move
      (hasPU (decStage c5X).snake.active_powerups PowerUpType.GHOST)
      = none ∧
    Game.update emptyOracle c5X = some c5Xres ∧
    hasPU c5Xres.snake.active_powerups PowerUpType.SHIELD = false ∧
    c5Xres.mode = Mode.GAME_OVER := by
  have h3 : ¬ (Mode.SURVIVAL = Mode.CLASSIC) := by decide
  have hbW : hasPU [(PowerUpType.SHIELD, 11), (PowerUpType.GHOST, 7)]
      PowerUpType.SPEED_BOOST = false := by decide
  have h1W : decStage c5W = { c5W with
      snake := { c5W.snake with
        active_powerups := [(PowerUpType.SHIELD, 11),
                            (PowerUpType.GHOST, 7)] } } := by decide
  have h7W : framesPerMove (decStage c5W) = 7 := by
    rw [h1W]
    norm_num [framesPerMove, currentSpeed, pyInt, c5W, baseGame, hbW, FPS,
      if_neg h3]
    rfl
  have huW : Game.update emptyOracle c5W = some c5Wres := by
    rw [update_fire emptyOracle c5W rfl (by rw [h7W]; decide)]
    decide
  have hbX : hasPU [(PowerUpType.SHIELD, 4)]
      PowerUpType.SPEED_BOOST = false := by decide
  have h1X : decStage c5X = { c5X with
      snake := { c5X.snake with
        active_powerups := [(PowerUpType.SHIELD, 4)] } } := by decide
  have h7X : framesPerMove (decStage c5X) = 7 := by
    rw [h1X]
    norm_num [framesPerMove, currentSpeed, pyInt, c5X, baseGame, hbX, FPS,
      if_neg h3]
    rfl
  have huX : Game.update emptyOracle c5X = some c5Xres := by
    rw [update_fire emptyOracle c5X rfl (by rw [h7X]; decide)]
    decide
  exact ⟨huW, by decide, by decide, huX, by decide, by decide⟩

/-- Witness for C10 at the concrete tick `c10G`: the blocked left-wall
move with Shield reduces the tick to the post-move checks on the
unmoved, Shield-stripped snake. -/
theorem c10_witness :
    Game.update emptyOracle c10G =
      postMove emptyOracle
        (hasPU (decStage c10G).snake.active_powerups PowerUpType.GHOST)
        { decStage c10G with
          move_counter := 0
          snake := { (decStage c10G).snake with
            active_powerups :=
              erasePU (decStage c10G).snake.active_powerups
                PowerUpType.SHIELD } } ∧
    ({ (decStage c10G).snake with
        active_powerups :=
          erasePU (decStage c10G).snake.active_powerups PowerUpType.SHIELD
      } : Snake).body = c10G.snake.body ∧
    ({ (decStage c10G).snake with
        active_powerups :=
          erasePU (decStage c10G).snake.active_powerups PowerUpType.SHIELD
      } : Snake).direction = c10G.snake.direction ∧
    ({ (decStage c10G).snake with
        active_powerups :=
          erasePU (decStage c10G).snake.active_powerups PowerUpType.SHIELD
      } : Snake).grow_pending = c10G.snake.grow_pending ∧
    ({ (decStage c10G).snake with
        active_powerups :=
          erasePU (decStage c10G).snake.active_powerups PowerUpType.SHIELD
      } : Snake).get_head = c10G.snake.get_head ∧
    hasPU ({ (decStage c10G).snake with
        active_powerups :=
          erasePU (decStage c10G).snake.active_powerups PowerUpType.SHIELD
      } : Snake).active_powerups PowerUpType.SHIELD = false := by
  have hbA : hasPU [(PowerUpType.SHIELD, 9)]
      PowerUpType.SPEED_BOOST = false := by decide
  have h1 : decStage c10G = { c10G with
      snake := { c10G.snake with
        active_powerups := [(PowerUpType.SHIELD, 9)] } } := by decide
  have h7 : framesPerMove (decStage c10G) = 7 := by
    rw [h1]
    norm_num [framesPerMove, currentSpeed, pyInt, c10G, baseGame, hbA, FPS]
    rfl
  exact c10_blocked_shield_no_advance emptyOracle c10G rfl
    (by rw [h7]; decide) (by decide) (by decide)
